import Mathlib

/-!
Shallow embedding of the SPIKE root-key custody and admin-authentication
subsystem: the admin login route (`routeAdminLogin` in
app/nexus/internal/route/login.go), the bootstrap state update
(`updateStateForInit`), the replicator loop (`Tick` in
app/nexus/internal/poll/poll.go), the Keeper-side `routeShow` handler, and
the quorum recovery rule of the RecoveryCoordinator.

Machine bytes are modelled as `Nat` values (reduced mod 256 where the code
operates on `byte`); fallible operations return `Option`; the external
PBKDF2 and JWT primitives are parameters of the embedding, since they live
outside this repository.
-/

/-! ## Go `encoding/hex` -/

/-- Value of one hex digit character, as in Go's `fromHexChar`: accepts
`0-9`, `a-f` and `A-F`, rejects everything else. -/
def hexDigitVal (c : Char) : Option Nat :=
  if '0' ≤ c ∧ c ≤ '9' then some (c.toNat - '0'.toNat)
  else if 'a' ≤ c ∧ c ≤ 'f' then some (c.toNat - 'a'.toNat + 10)
  else if 'A' ≤ c ∧ c ≤ 'F' then some (c.toNat - 'A'.toNat + 10)
  else none

/-- Go `hex.DecodeString` on a list of characters: two hex digits per byte,
failing on an odd-length input or a non-hex character. -/
def hexDecodeBytes : List Char → Option (List Nat)
  | [] => some []
  | [_] => none
  | c1 :: c2 :: rest =>
    match hexDigitVal c1, hexDigitVal c2, hexDecodeBytes rest with
    | some hi, some lo, some tl => some ((16 * hi + lo) :: tl)
    | _, _, _ => none

/-- Go `hex.DecodeString`. -/
def hexDecodeString (s : String) : Option (List Nat) :=
  hexDecodeBytes s.data

/-- Lowercase hex digit character for a value below 16, as Go's hextable. -/
def hexDigitChar (n : Nat) : Char :=
  if n < 10 then Char.ofNat (48 + n) else Char.ofNat (87 + n)

/-- The two lowercase hex digits Go `hex.Encode` emits for one byte. -/
def hexEncodeByte (b : Nat) : List Char :=
  [hexDigitChar (b % 256 / 16), hexDigitChar (b % 256 % 16)]

/-- Go `hex.EncodeToString`. -/
def hexEncodeToString (bs : List Nat) : String :=
  String.mk (bs.flatMap hexEncodeByte)

/-! ## Nexus state (the `state` package accessors used by login and init) -/

/-- The stored admin credential record: password hash and salt, both kept
hex-encoded, exactly as `state.SetAdminCredentials` stores them. -/
structure AdminCredential where
  passwordHash : String
  salt : String
  deriving DecidableEq

/-- The in-memory Nexus state the login and init routes touch: the admin
token and the admin credential record. -/
structure NexusState where
  adminToken : String
  credentials : AdminCredential
  deriving DecidableEq

/-- Accessor `state.AdminCredentials()`. -/
def AdminCredentials (st : NexusState) : AdminCredential :=
  st.credentials

/-- Accessor `state.AdminToken()`. -/
def AdminToken (st : NexusState) : String :=
  st.adminToken

/-- Mutator `state.SetAdminToken`. -/
def SetAdminToken (token : String) (st : NexusState) : NexusState :=
  { st with adminToken := token }

/-- Mutator `state.SetAdminCredentials(hash, salt)`. -/
def SetAdminCredentials (hashHex saltHex : String) (st : NexusState) : NexusState :=
  { st with credentials := { passwordHash := hashHex, salt := saltHex } }

/-! ## PBKDF2 parameters and derivations -/

/-- Shape of `pbkdf2.Key` from golang.org/x/crypto (an external collaborator):
password, salt, iteration count, key length; the SHA-256 PRF is fixed. -/
abbrev Pbkdf2 := String → List Nat → Nat → Nat → List Nat

/-- Modelled from the spec: `env.Pbkdf2IterationCount()` of the nexus `env`
package is not under src/; the spec fixes the iteration count at the OWASP
minimum of 600000, identical between bootstrap and login. -/
def Pbkdf2IterationCount : Nat := 600000

/-- Modelled from the spec: `env.ShaHashLength()` of the nexus `env` package
is not under src/; the spec fixes the output length at 32 bytes. -/
def ShaHashLength : Nat := 32

/-- The candidate hash `routeAdminLogin` derives from the submitted password
and the decoded salt: `pbkdf2.Key(password, s, 600000, 32, sha256.New)`. -/
def loginCandidateHash (pbkdf2Key : Pbkdf2) (password : String) (s : List Nat) : List Nat :=
  pbkdf2Key password s 600000 32

/-- The password hash `updateStateForInit` derives at bootstrap:
`pbkdf2.Key(password, salt, env.Pbkdf2IterationCount(), env.ShaHashLength(), sha256.New)`. -/
def initPasswordHash (pbkdf2Key : Pbkdf2) (password : String) (salt : List Nat) : List Nat :=
  pbkdf2Key password salt Pbkdf2IterationCount ShaHashLength

/-! ## Bootstrap: `updateStateForInit` -/

/-- `updateStateForInit(password, adminTokenBytes, salt)`: derives the
password hash, sets the admin token to `"spike." + string(adminTokenBytes)`
(the byte-to-string conversion is modelled by taking the resulting string),
and stores the hash and salt hex-encoded. -/
def updateStateForInit (pbkdf2Key : Pbkdf2) (password : String)
    (adminTokenBytes : String) (salt : List Nat) (st : NexusState) : NexusState :=
  SetAdminCredentials
    (hexEncodeToString (initPasswordHash pbkdf2Key password salt))
    (hexEncodeToString salt)
    (SetAdminToken ("spike." ++ adminTokenBytes) st)

/-! ## Admin login: `routeAdminLogin` -/

/-- Modelled from the spec: the coarse wire error code `reqres.ErrBadInput`
(the `reqres` package is not under src/; section 6 of the design fixes the
codes `bad_input`, `unauthorized`, `server_fault`). -/
def ErrBadInput : String := "bad_input"

/-- Modelled from the spec: the coarse wire error code `reqres.ErrUnauthorized`. -/
def ErrUnauthorized : String := "unauthorized"

/-- Modelled from the spec: the coarse wire error code `reqres.ErrServerFault`. -/
def ErrServerFault : String := "server_fault"

/-- `reqres.AdminLoginRequest`. -/
structure AdminLoginRequest where
  password : String
  deriving DecidableEq

/-- `reqres.AdminLoginResponse`: a token on success, an error code on failure. -/
structure AdminLoginResponse where
  token : String
  err : String
  deriving DecidableEq

/-- Outcome of `routeAdminLogin`: the HTTP response it writes, or the
sign-failure path on which `net.CreateJwt` already handled the response. -/
inductive LoginResult where
  | response (status : Nat) (body : AdminLoginResponse)
  | signFailure
  deriving DecidableEq

/-- `routeAdminLogin`, with explicit state passing. `req = none` models a
request body that fails to parse, on which `net.HandleRequest` responds
400 with `bad_input`. Then, following login.go: decode the stored salt
(failure responds 500 `server_fault`), derive the candidate hash, decode
the stored password hash (failure responds 500 `server_fault`), compare
hashes with `hmac.Equal` (mismatch responds 401 `unauthorized`), require a
non-empty admin token (else 500 `server_fault`), sign the JWT (an empty
result is the sign-failure path), and respond 200 with the token. -/
def routeAdminLoginSt (pbkdf2Key : Pbkdf2) (createJwt : String → String)
    (req : Option AdminLoginRequest) (st : NexusState) : LoginResult × NexusState :=
  match req with
  | none => (.response 400 { token := "", err := ErrBadInput }, st)
  | some request =>
    match hexDecodeString (AdminCredentials st).salt with
    | none => (.response 500 { token := "", err := ErrServerFault }, st)
    | some s =>
      match hexDecodeString (AdminCredentials st).passwordHash with
      | none => (.response 500 { token := "", err := ErrServerFault }, st)
      | some b =>
        if loginCandidateHash pbkdf2Key request.password s ≠ b then
          (.response 401 { token := "", err := ErrUnauthorized }, st)
        else if AdminToken st = "" then
          (.response 500 { token := "", err := ErrServerFault }, st)
        else if createJwt (AdminToken st) = "" then
          (.signFailure, st)
        else
          (.response 200 { token := createJwt (AdminToken st), err := "" }, st)

/-- The response `routeAdminLogin` produces (first component of the
state-passing embedding). -/
def routeAdminLogin (pbkdf2Key : Pbkdf2) (createJwt : String → String)
    (req : Option AdminLoginRequest) (st : NexusState) : LoginResult :=
  (routeAdminLoginSt pbkdf2Key createJwt req st).1

/-! ## Keeper-side `routeShow` -/

/-- The Keeper's in-memory state: the held root key (`state.RootKey()`),
empty when none has been received. -/
structure KeeperState where
  rootKey : String
  deriving DecidableEq

/-- `reqres.RootKeyReadRequest` (an empty request record). -/
structure RootKeyReadRequest where
  deriving DecidableEq

/-- `reqres.RootKeyReadResponse`. -/
structure RootKeyReadResponse where
  rootKey : String
  deriving DecidableEq

/-- Body written by `routeShow`: the empty string, or the marshalled
`RootKeyReadResponse`. -/
inductive ShowBody where
  | empty
  | json (res : RootKeyReadResponse)
  deriving DecidableEq

/-- An HTTP response of `routeShow`: status code and written body. -/
structure ShowResponse where
  status : Nat
  body : ShowBody
  deriving DecidableEq

/-- `routeShow`: `req = none` models a body that fails to unmarshal as a
`RootKeyReadRequest`, on which the handler writes 400 with an empty body;
a well-formed request gets 200 with the currently held root key. -/
def routeShow (st : KeeperState) (req : Option RootKeyReadRequest) : ShowResponse :=
  match req with
  | none => { status := 400, body := .empty }
  | some _ => { status := 200, body := .json { rootKey := st.rootKey } }

/-! ## Replicator: `Tick` -/

/-- Result of one push attempt to one Keeper. -/
inductive PushResult where
  | ok
  | failed
  deriving DecidableEq

/-- Modelled from the spec: `net.UpdateCache` is not under src/; the spec
says each tick attempts a push of the current root key to every configured
Keeper endpoint, with independent per-Keeper failures (log and continue,
never abort the tick). Keepers are identified by index; `push` gives each
attempt's outcome. -/
def UpdateCache (push : Nat → String → PushResult) (keepers : List Nat)
    (key : String) : List (Nat × PushResult) :=
  keepers.map fun k => (k, push k key)

/-- What one iteration of `Tick`'s loop body does for a tick event. -/
inductive TickOutcome where
  | skipped
  | pushed (results : List (Nat × PushResult))
  deriving DecidableEq

/-- One tick of the loop body in poll.go: read the root key; if it is empty,
skip silently (`continue`); otherwise push via `UpdateCache`; an error is
logged and the loop continues either way. -/
def tickStep (push : Nat → String → PushResult) (keepers : List Nat)
    (rootKey : String) : TickOutcome :=
  if rootKey = "" then .skipped
  else .pushed (UpdateCache push keepers rootKey)

/-- Events driving `Tick`'s select loop: a ticker firing with the root key
read at that moment, or the context being cancelled. -/
inductive TickEvent where
  | tick (rootKey : String)
  | cancel
  deriving DecidableEq

/-- `Tick`: processes ticker events until cancellation, producing one
outcome per tick; it returns nothing to any caller (no error channel). -/
def Tick (push : Nat → String → PushResult) (keepers : List Nat) :
    List TickEvent → List TickOutcome
  | [] => []
  | .cancel :: _ => []
  | .tick key :: rest => tickStep push keepers key :: Tick push keepers rest

/-! ## RecoveryCoordinator: `Recover` -/

/-- One Keeper's answer to `Show()` during recovery: a successful response
carrying its held key (possibly empty), or a failure. -/
inductive KeeperResponse where
  | success (key : String)
  | failure
  deriving DecidableEq

/-- Modelled from the spec: the successful non-empty values among the
collected Keeper responses (RecoveryCoordinator, step 2). -/
def successfulNonEmpty (responses : List KeeperResponse) : List String :=
  responses.filterMap fun r =>
    match r with
    | .success key => if key = "" then none else some key
    | .failure => none

/-- Modelled from the spec: the quorum threshold T = floor(N/2) + 1 where
N is the number of configured Keepers. -/
def quorumThreshold (n : Nat) : Nat :=
  n / 2 + 1

/-- Modelled from the spec: `Recover()` is not under src/; the spec's
quorum rule accepts a key value exactly when it is returned by at least T
of the N configured Keepers (one response is collected per Keeper), and
fails otherwise. -/
def recover (responses : List KeeperResponse) : Option String :=
  (successfulNonEmpty responses).find? fun v =>
    quorumThreshold responses.length ≤ (successfulNonEmpty responses).count v

/-! ## Concrete fixtures used to evaluate the development on closed inputs -/

/-- A concrete PBKDF2 model that hashes a password to its character codes;
it is injective in the password, as a collision-free hash model. -/
def wDerive : Pbkdf2 :=
  fun p _ _ _ => p.data.map Char.toNat

/-- A concrete PBKDF2 model with a constant output. -/
def cDerive : Pbkdf2 :=
  fun _ _ _ _ => [0]

/-- A concrete JWT signer that always succeeds. -/
def wJwt : String → String :=
  fun _ => "tok"

/-- A blank Nexus state, as before any bootstrap. -/
def st0 : NexusState :=
  { adminToken := "", credentials := { passwordHash := "", salt := "" } }

/-- A bootstrapped Nexus state whose credentials store the `wDerive` hash of
the password `pw` under the salt `[7]`. -/
def wState : NexusState :=
  { adminToken := "spike.t",
    credentials :=
      { passwordHash := hexEncodeToString (loginCandidateHash wDerive "pw" [7]),
        salt := hexEncodeToString [7] } }

/-- A concrete push outcome map on which Keeper 1 is unreachable. -/
def wPush : Nat → String → PushResult :=
  fun k _ => if k = 1 then .failed else .ok

/-! ## Helper lemmas: hex round trip -/

/-- Decoding the digit character emitted for a value below 16 recovers it. -/
theorem hexDigitVal_hexDigitChar (n : Nat) (h : n < 16) :
    hexDigitVal (hexDigitChar n) = some n := by
  interval_cases n <;> rfl

/-- Decoding the character stream of an encoded byte list recovers the bytes
reduced mod 256. -/
theorem hexDecodeBytes_flatMap (bs : List Nat) :
    hexDecodeBytes (bs.flatMap hexEncodeByte) = some (bs.map fun b => b % 256) := by
  induction bs with
  | nil => rfl
  | cons b tl ih =>
    have h1 : hexDigitVal (hexDigitChar (b % 256 / 16)) = some (b % 256 / 16) :=
      hexDigitVal_hexDigitChar _ (by omega)
    have h2 : hexDigitVal (hexDigitChar (b % 256 % 16)) = some (b % 256 % 16) :=
      hexDigitVal_hexDigitChar _ (by omega)
    have h3 : 16 * (b % 256 / 16) + b % 256 % 16 = b % 256 := by omega
    calc hexDecodeBytes ((b :: tl).flatMap hexEncodeByte)
        = match hexDigitVal (hexDigitChar (b % 256 / 16)),
            hexDigitVal (hexDigitChar (b % 256 % 16)),
            hexDecodeBytes (tl.flatMap hexEncodeByte) with
          | some hi, some lo, some t => some ((16 * hi + lo) :: t)
          | _, _, _ => none := rfl
      _ = some ((16 * (b % 256 / 16) + b % 256 % 16) :: tl.map fun x => x % 256) := by
            rw [h1, h2, ih]
      _ = some ((b :: tl).map fun x => x % 256) := by rw [h3]; rfl

/-- Go hex round trip: `hex.DecodeString (hex.EncodeToString bs)` recovers
the bytes reduced mod 256. -/
theorem hexDecodeString_hexEncodeToString (bs : List Nat) :
    hexDecodeString (hexEncodeToString bs) = some (bs.map fun b => b % 256) :=
  hexDecodeBytes_flatMap bs

/-- Go hex round trip on genuine bytes (all below 256). -/
theorem hexDecodeString_hexEncodeToString_of_bytes (bs : List Nat)
    (h : ∀ x ∈ bs, x < 256) :
    hexDecodeString (hexEncodeToString bs) = some bs := by
  rw [hexDecodeString_hexEncodeToString]
  have h3 : bs.map (fun b => b % 256) = bs := by
    induction bs with
    | nil => rfl
    | cons b tl ih =>
      have hb : b % 256 = b := Nat.mod_eq_of_lt (h b (by simp))
      have htl := ih fun x hx => h x (by simp [hx])
      simp [hb, htl]
  rw [h3]

/-! ## Helper lemmas: quorum counting -/

/-- Two distinct values cannot each account for more than the whole list:
their occurrence counts sum to at most its length. -/
theorem count_add_count_le_length (l : List String) (a b : String) (hab : a ≠ b) :
    l.count a + l.count b ≤ l.length := by
  induction l with
  | nil => simp
  | cons c tl ih =>
    simp only [List.count_cons, List.length_cons, beq_iff_eq]
    split_ifs with h1 h2
    · exact absurd (h1.symm.trans h2) hab
    all_goals omega

/-- The quorum rule in one sentence: `recover` returns `K` exactly when at
least `T = floor(N/2) + 1` of the `N` collected responses are successful,
non-empty and carry exactly `K`. -/
theorem recover_eq_some_iff (rs : List KeeperResponse) (K : String) :
    recover rs = some K ↔
      quorumThreshold rs.length ≤ (successfulNonEmpty rs).count K := by
  unfold recover
  constructor
  · intro h
    have hp := List.find?_some h
    simpa using hp
  · intro h
    have hpos : 0 < quorumThreshold rs.length := by
      simp only [quorumThreshold]
      omega
    have hKmem : K ∈ successfulNonEmpty rs :=
      List.count_pos_iff.mp (lt_of_lt_of_le hpos h)
    have hex : ∃ x ∈ successfulNonEmpty rs,
        (decide (quorumThreshold rs.length ≤ (successfulNonEmpty rs).count x)) = true :=
      ⟨K, hKmem, by simpa using h⟩
    have hsome := List.find?_isSome.mpr hex
    obtain ⟨v, hv⟩ := Option.isSome_iff_exists.mp hsome
    have hvcount : quorumThreshold rs.length ≤ (successfulNonEmpty rs).count v := by
      simpa using List.find?_some hv
    have hlen : (successfulNonEmpty rs).length ≤ rs.length :=
      List.length_filterMap_le _ _
    have hKv : v = K := by
      by_contra hne
      have hsum := count_add_count_le_length (successfulNonEmpty rs) v K hne
      simp only [quorumThreshold] at hvcount h
      omega
    rw [hv, hKv]

/-! ## Helper lemmas: the login route -/

/-- Characterization of the `server_fault` responses of `routeAdminLogin` on
a parsed request: exactly the two hex-decode failures and the
missing-admin-token case after a successful password match. -/
theorem login_response_fault_iff (pbkdf2Key : Pbkdf2) (createJwt : String → String)
    (request : AdminLoginRequest) (st : NexusState) :
    routeAdminLogin pbkdf2Key createJwt (some request) st =
        .response 500 { token := "", err := ErrServerFault } ↔
      hexDecodeString (AdminCredentials st).salt = none ∨
      (∃ s, hexDecodeString (AdminCredentials st).salt = some s ∧
        hexDecodeString (AdminCredentials st).passwordHash = none) ∨
      (∃ s b, hexDecodeString (AdminCredentials st).salt = some s ∧
        hexDecodeString (AdminCredentials st).passwordHash = some b ∧
        loginCandidateHash pbkdf2Key request.password s = b ∧
        AdminToken st = "") := by
  unfold routeAdminLogin routeAdminLoginSt
  cases hs : hexDecodeString (AdminCredentials st).salt with
  | none => simp
  | some s =>
    cases hb : hexDecodeString (AdminCredentials st).passwordHash with
    | none => simp
    | some b =>
      by_cases hmatch : loginCandidateHash pbkdf2Key request.password s = b
      · by_cases htok : AdminToken st = ""
        · simp [hmatch, htok]
        · by_cases hjwt : createJwt (AdminToken st) = "" <;>
            simp [hmatch, htok, hjwt, ErrServerFault]
      · simp [hmatch, ErrServerFault, ErrUnauthorized]

/-- Shape of every outcome of `routeAdminLoginSt`: one of the five fixed
responses (or sign failure), always paired with the unchanged state. -/
theorem login_result_cases (pbkdf2Key : Pbkdf2) (createJwt : String → String)
    (req : Option AdminLoginRequest) (st : NexusState) :
    routeAdminLoginSt pbkdf2Key createJwt req st =
        (.response 400 { token := "", err := ErrBadInput }, st) ∨
    routeAdminLoginSt pbkdf2Key createJwt req st =
        (.response 500 { token := "", err := ErrServerFault }, st) ∨
    routeAdminLoginSt pbkdf2Key createJwt req st =
        (.response 401 { token := "", err := ErrUnauthorized }, st) ∨
    routeAdminLoginSt pbkdf2Key createJwt req st = (.signFailure, st) ∨
    ∃ t, t ≠ "" ∧ routeAdminLoginSt pbkdf2Key createJwt req st =
        (.response 200 { token := t, err := "" }, st) := by
  unfold routeAdminLoginSt
  rcases req with _ | request
  · exact Or.inl rfl
  · cases hexDecodeString (AdminCredentials st).salt with
    | none => exact Or.inr (Or.inl rfl)
    | some s =>
      cases hexDecodeString (AdminCredentials st).passwordHash with
      | none => exact Or.inr (Or.inl rfl)
      | some b =>
        by_cases hmatch : loginCandidateHash pbkdf2Key request.password s ≠ b
        · refine Or.inr (Or.inr (Or.inl ?_))
          simp [hmatch]
        · by_cases htok : AdminToken st = ""
          · refine Or.inr (Or.inl ?_)
            simp [hmatch, htok]
          · by_cases hjwt : createJwt (AdminToken st) = ""
            · refine Or.inr (Or.inr (Or.inr (Or.inl ?_)))
              simp [hmatch, htok, hjwt]
            · refine Or.inr (Or.inr (Or.inr (Or.inr
                ⟨createJwt (AdminToken st), hjwt, ?_⟩)))
              simp [hmatch, htok, hjwt]

/-- Every HTTP response `routeAdminLogin` writes carries one of the coarse
error codes (or none at all, on success): no internal error text. -/
theorem login_err_codes (pbkdf2Key : Pbkdf2) (createJwt : String → String)
    (req : Option AdminLoginRequest) (st : NexusState) (n : Nat)
    (body : AdminLoginResponse)
    (h : routeAdminLogin pbkdf2Key createJwt req st = .response n body) :
    body.err = "" ∨ body.err = ErrBadInput ∨ body.err = ErrUnauthorized ∨
      body.err = ErrServerFault := by
  unfold routeAdminLogin at h
  rcases login_result_cases pbkdf2Key createJwt req st with hc | hc | hc | hc | ⟨t, ht, hc⟩ <;>
    rw [hc] at h
  · injection h with hn hb
    rw [← hb]
    simp
  · injection h with hn hb
    rw [← hb]
    simp
  · injection h with hn hb
    rw [← hb]
    simp
  · exact LoginResult.noConfusion h
  · injection h with hn hb
    rw [← hb]
    simp

/-- The admin token written by bootstrap is never empty: it starts with the
`spike.` prefix. -/
theorem spike_token_ne_empty (t : String) : "spike." ++ t ≠ "" := by
  intro h
  have hlen := congrArg String.length h
  simp only [String.length_append] at hlen
  have h6 : "spike.".length = 6 := rfl
  have h0 : "".length = 0 := rfl
  omega

/-- The concrete hash model `wDerive` is collision-free in the password. -/
theorem wDerive_password_inj (saltBytes : List Nat) (p q : String)
    (h : loginCandidateHash wDerive p saltBytes = loginCandidateHash wDerive q saltBytes) :
    p = q := by
  have hmap : p.data.map Char.toNat = q.data.map Char.toNat := h
  exact String.ext (List.map_injective_iff.mpr
    (fun a b hab => Char.eq_of_val_eq (UInt32.toNat.inj hab)) hmap)

/-! ## Claim theorems -/

/-- Claim C1: for every configured Keeper count N with quorum threshold
T = floor(N/2) + 1, `recover` returns a key value K exactly when at least T
successful non-empty Keeper responses carry the identical value K, and
fails otherwise; in particular with N = 3 (T = 2), responses A, A, B yield
A; responses A, B, C fail; and responses A, empty, error fail. -/
theorem recover_quorum_threshold :
    (∀ rs K, recover rs = some K ↔
      quorumThreshold rs.length ≤ (successfulNonEmpty rs).count K) ∧
    recover [.success "A", .success "A", .success "B"] = some "A" ∧
    recover [.success "A", .success "B", .success "C"] = none ∧
    recover [.success "A", .success "", .failure] = none := by
  refine ⟨recover_eq_some_iff, ?_, ?_, ?_⟩ <;> decide

/-- Claim C2: the password-hash derivation used by bootstrap
(`updateStateForInit`) and the one used by login (`routeAdminLogin`) are
the same function with the same parameters: the hash stored at bootstrap
hex-decodes to exactly the candidate hash login computes for the same
password and salt, with iteration count at least 600000 and output length
32 bytes on both sides. -/
theorem bootstrap_login_hash_agree (pbkdf2Key : Pbkdf2) (password : String)
    (adminTokenBytes : String) (saltBytes : List Nat) (st : NexusState)
    (hhb : ∀ x ∈ initPasswordHash pbkdf2Key password saltBytes, x < 256) :
    initPasswordHash pbkdf2Key password saltBytes =
      loginCandidateHash pbkdf2Key password saltBytes ∧
    Pbkdf2IterationCount = 600000 ∧
    600000 ≤ Pbkdf2IterationCount ∧
    ShaHashLength = 32 ∧
    hexDecodeString (AdminCredentials (updateStateForInit pbkdf2Key password
        adminTokenBytes saltBytes st)).passwordHash =
      some (loginCandidateHash pbkdf2Key password saltBytes) := by
  refine ⟨rfl, rfl, le_refl _, rfl, ?_⟩
  exact hexDecodeString_hexEncodeToString_of_bytes _ hhb

/-- Witness for C2 at a concrete password, salt and hash model. -/
theorem bootstrap_login_hash_agree_witness :
    initPasswordHash wDerive "pw" [7] = loginCandidateHash wDerive "pw" [7] ∧
    Pbkdf2IterationCount = 600000 ∧
    600000 ≤ Pbkdf2IterationCount ∧
    ShaHashLength = 32 ∧
    hexDecodeString (AdminCredentials
        (updateStateForInit wDerive "pw" "t" [7] st0)).passwordHash =
      some (loginCandidateHash wDerive "pw" [7]) :=
  bootstrap_login_hash_agree wDerive "pw" "t" [7] st0 (by decide)

/-- Claim C3: for every stored credential (hash, salt) with
hash = derive(P, salt) — the hash model taken collision-free in the
password — `Login(P)` succeeds with a signed session token, and every
other password is refused with exactly the 401 `unauthorized` response,
which carries no further information. -/
theorem login_correct_password (pbkdf2Key : Pbkdf2) (createJwt : String → String)
    (st : NexusState) (P : String) (saltBytes : List Nat)
    (hsalt : (AdminCredentials st).salt = hexEncodeToString saltBytes)
    (hhash : (AdminCredentials st).passwordHash =
      hexEncodeToString (loginCandidateHash pbkdf2Key P saltBytes))
    (hsb : ∀ x ∈ saltBytes, x < 256)
    (hhb : ∀ x ∈ loginCandidateHash pbkdf2Key P saltBytes, x < 256)
    (htok : AdminToken st ≠ "")
    (hjwt : createJwt (AdminToken st) ≠ "")
    (hinj : ∀ p q : String, loginCandidateHash pbkdf2Key p saltBytes =
      loginCandidateHash pbkdf2Key q saltBytes → p = q) :
    routeAdminLogin pbkdf2Key createJwt (some { password := P }) st =
      .response 200 { token := createJwt (AdminToken st), err := "" } ∧
    ∀ Q : String, Q ≠ P →
      routeAdminLogin pbkdf2Key createJwt (some { password := Q }) st =
        .response 401 { token := "", err := ErrUnauthorized } := by
  have hds : hexDecodeString (AdminCredentials st).salt = some saltBytes := by
    rw [hsalt]
    exact hexDecodeString_hexEncodeToString_of_bytes _ hsb
  have hdh : hexDecodeString (AdminCredentials st).passwordHash =
      some (loginCandidateHash pbkdf2Key P saltBytes) := by
    rw [hhash]
    exact hexDecodeString_hexEncodeToString_of_bytes _ hhb
  constructor
  · unfold routeAdminLogin routeAdminLoginSt
    rw [hds, hdh]
    simp [htok, hjwt]
  · intro Q hQ
    have hne : loginCandidateHash pbkdf2Key Q saltBytes ≠
        loginCandidateHash pbkdf2Key P saltBytes :=
      fun hEq => hQ (hinj Q P hEq)
    unfold routeAdminLogin routeAdminLoginSt
    rw [hds, hdh]
    simp [hne]

/-- Witness for C3: the concrete bootstrapped state `wState` accepts the
password `pw` and refuses every other password with 401. -/
theorem login_correct_password_witness :
    routeAdminLogin wDerive wJwt (some { password := "pw" }) wState =
      .response 200 { token := "tok", err := "" } ∧
    ∀ Q : String, Q ≠ "pw" →
      routeAdminLogin wDerive wJwt (some { password := Q }) wState =
        .response 401 { token := "", err := ErrUnauthorized } :=
  login_correct_password wDerive wJwt wState "pw" [7] rfl rfl (by decide)
    (by decide) (by decide) (by decide) (wDerive_password_inj [7])

/-- Claim C4: `routeAdminLogin` writes the 500 `server_fault` response
exactly when the stored salt fails hex decoding, the stored password hash
fails hex decoding, or the admin token is empty after a successful
password match; and every response it writes carries only a coarse error
code, never internal error text. -/
theorem login_server_fault_exact (pbkdf2Key : Pbkdf2) (createJwt : String → String)
    (request : AdminLoginRequest) (st : NexusState) :
    (routeAdminLogin pbkdf2Key createJwt (some request) st =
        .response 500 { token := "", err := ErrServerFault } ↔
      hexDecodeString (AdminCredentials st).salt = none ∨
      (∃ s, hexDecodeString (AdminCredentials st).salt = some s ∧
        hexDecodeString (AdminCredentials st).passwordHash = none) ∨
      (∃ s b, hexDecodeString (AdminCredentials st).salt = some s ∧
        hexDecodeString (AdminCredentials st).passwordHash = some b ∧
        loginCandidateHash pbkdf2Key request.password s = b ∧
        AdminToken st = "")) ∧
    ∀ req n body, routeAdminLogin pbkdf2Key createJwt req st = .response n body →
      body.err = "" ∨ body.err = ErrBadInput ∨ body.err = ErrUnauthorized ∨
        body.err = ErrServerFault := by
  constructor
  · exact login_response_fault_iff pbkdf2Key createJwt request st
  · intro req n body h
    exact login_err_codes pbkdf2Key createJwt req st n body h

/-- Claim C5 counterexample: `updateStateForInit` on an already-bootstrapped
state is neither a no-op nor an error — the second call silently replaces
the AdminToken (and the whole credential record) with fresh values. -/
theorem init_second_call_replaces :
    updateStateForInit cDerive "pw" "bbbb" [1]
        (updateStateForInit cDerive "pw" "aaaa" [1] st0) ≠
      updateStateForInit cDerive "pw" "aaaa" [1] st0 ∧
    AdminToken (updateStateForInit cDerive "pw" "bbbb" [1]
        (updateStateForInit cDerive "pw" "aaaa" [1] st0)) ≠
      AdminToken (updateStateForInit cDerive "pw" "aaaa" [1] st0) := by
  constructor <;> decide

/-- Claim C5 amended: the bootstrap state update has no once-only guard —
`updateStateForInit` overwrites the AdminToken and credentials
unconditionally, its result independent of the previous state, so a second
call silently replaces them. -/
theorem init_overwrites_unconditionally (pbkdf2Key : Pbkdf2) (password : String)
    (adminTokenBytes : String) (salt : List Nat) (st st' : NexusState) :
    updateStateForInit pbkdf2Key password adminTokenBytes salt st =
      updateStateForInit pbkdf2Key password adminTokenBytes salt st' := rfl

/-- Claim C6: during a replicator tick, a failed push to one Keeper leaves
its failure in the tick's per-Keeper results without aborting: every
configured Keeper still gets its own independent push attempt, the loop
goes on to the next tick (where the failed Keeper is attempted again), and
`Tick` raises nothing to any caller. -/
theorem tick_keeper_failure_isolated (push : Nat → String → PushResult)
    (keepers : List Nat) (key : String) (k : Nat) (rest : List TickEvent)
    (hk : k ∈ keepers) (hfail : push k key = .failed) (hkey : key ≠ "") :
    tickStep push keepers key = .pushed (UpdateCache push keepers key) ∧
    (k, PushResult.failed) ∈ UpdateCache push keepers key ∧
    (∀ e ∈ keepers, (e, push e key) ∈ UpdateCache push keepers key) ∧
    Tick push keepers (.tick key :: rest) =
      tickStep push keepers key :: Tick push keepers rest := by
  refine ⟨by simp [tickStep, hkey], ?_, ?_, rfl⟩
  · have hmem : (k, push k key) ∈ UpdateCache push keepers key :=
      List.mem_map_of_mem _ hk
    rwa [hfail] at hmem
  · intro e he
    exact List.mem_map_of_mem _ he

/-- Witness for C6: three Keepers, Keeper 1 unreachable. -/
theorem tick_keeper_failure_isolated_witness :
    tickStep wPush [0, 1, 2] "K" = .pushed (UpdateCache wPush [0, 1, 2] "K") ∧
    (1, PushResult.failed) ∈ UpdateCache wPush [0, 1, 2] "K" ∧
    (∀ e ∈ [0, 1, 2], (e, wPush e "K") ∈ UpdateCache wPush [0, 1, 2] "K") ∧
    Tick wPush [0, 1, 2] (.tick "K" :: []) =
      tickStep wPush [0, 1, 2] "K" :: Tick wPush [0, 1, 2] [] :=
  tick_keeper_failure_isolated wPush [0, 1, 2] "K" 1 [] (by decide) (by decide)
    (by decide)

/-- Claim C7: a replicator tick that reads an empty root key is skipped
silently — no push is attempted, nothing is produced beyond the skip, and
the loop simply waits for the next tick. -/
theorem tick_skips_empty_root_key (push : Nat → String → PushResult)
    (keepers : List Nat) (rest : List TickEvent) :
    tickStep push keepers "" = .skipped ∧
    Tick push keepers (.tick "" :: rest) = .skipped :: Tick push keepers rest := by
  constructor
  · rfl
  · rfl

/-- Claim C8: credentials written by `updateStateForInit` always hex-decode
in `routeAdminLogin`, so with a bootstrap-produced state the decode-failure
`server_fault` branches are unreachable — indeed no 500 response at all is
possible, since bootstrap also leaves a non-empty admin token. -/
theorem init_credentials_always_decode (pbkdf2Key : Pbkdf2) (password : String)
    (adminTokenBytes : String) (saltBytes : List Nat) (st : NexusState)
    (hsb : ∀ x ∈ saltBytes, x < 256)
    (hhb : ∀ x ∈ initPasswordHash pbkdf2Key password saltBytes, x < 256) :
    hexDecodeString (AdminCredentials (updateStateForInit pbkdf2Key password
        adminTokenBytes saltBytes st)).salt = some saltBytes ∧
    hexDecodeString (AdminCredentials (updateStateForInit pbkdf2Key password
        adminTokenBytes saltBytes st)).passwordHash =
      some (initPasswordHash pbkdf2Key password saltBytes) ∧
    ∀ createJwt request,
      routeAdminLogin pbkdf2Key createJwt (some request)
          (updateStateForInit pbkdf2Key password adminTokenBytes saltBytes st) ≠
        .response 500 { token := "", err := ErrServerFault } := by
  have hds : hexDecodeString (AdminCredentials (updateStateForInit pbkdf2Key
      password adminTokenBytes saltBytes st)).salt = some saltBytes :=
    hexDecodeString_hexEncodeToString_of_bytes _ hsb
  have hdh : hexDecodeString (AdminCredentials (updateStateForInit pbkdf2Key
      password adminTokenBytes saltBytes st)).passwordHash =
      some (initPasswordHash pbkdf2Key password saltBytes) :=
    hexDecodeString_hexEncodeToString_of_bytes _ hhb
  refine ⟨hds, hdh, ?_⟩
  intro createJwt request h
  rcases (login_response_fault_iff pbkdf2Key createJwt request _).mp h with
    h1 | ⟨s, hs1, hs2⟩ | ⟨s, b, hs1, hs2, hm, htk⟩
  · rw [hds] at h1
    exact Option.noConfusion h1
  · rw [hdh] at hs2
    exact Option.noConfusion hs2
  · exact spike_token_ne_empty adminTokenBytes htk

/-- Witness for C8 at a concrete password, salt and hash model. -/
theorem init_credentials_always_decode_witness :
    hexDecodeString (AdminCredentials
        (updateStateForInit wDerive "pw" "t" [7] st0)).salt = some [7] ∧
    hexDecodeString (AdminCredentials
        (updateStateForInit wDerive "pw" "t" [7] st0)).passwordHash =
      some (initPasswordHash wDerive "pw" [7]) ∧
    ∀ createJwt request,
      routeAdminLogin wDerive createJwt (some request)
          (updateStateForInit wDerive "pw" "t" [7] st0) ≠
        .response 500 { token := "", err := ErrServerFault } :=
  init_credentials_always_decode wDerive "pw" "t" [7] st0 (by decide) (by decide)

/-- Claim C9: the Keeper-side `routeShow` requires a body that parses as a
`RootKeyReadRequest`: an unparsable body gets 400 with an empty body —
independent of, and so never revealing, the held root key — while every
well-formed request gets 200 with whatever key is currently held,
including the empty string when none has been received. -/
theorem routeShow_parse_gate (st st' : KeeperState) (r : RootKeyReadRequest) :
    routeShow st none = { status := 400, body := .empty } ∧
    routeShow st none = routeShow st' none ∧
    routeShow st (some r) = { status := 200, body := .json { rootKey := st.rootKey } } ∧
    routeShow { rootKey := "" } (some r) =
      { status := 200, body := .json { rootKey := "" } } :=
  ⟨rfl, rfl, rfl, rfl⟩

/-- Claim C10: `routeAdminLogin` never mutates server state — on every
request and every outcome, the state after the call, its credential record
and its admin token equal their values before the call. -/
theorem login_preserves_state (pbkdf2Key : Pbkdf2) (createJwt : String → String)
    (req : Option AdminLoginRequest) (st : NexusState) :
    (routeAdminLoginSt pbkdf2Key createJwt req st).2 = st ∧
    AdminCredentials (routeAdminLoginSt pbkdf2Key createJwt req st).2 =
      AdminCredentials st ∧
    AdminToken (routeAdminLoginSt pbkdf2Key createJwt req st).2 = AdminToken st := by
  have h2 : (routeAdminLoginSt pbkdf2Key createJwt req st).2 = st := by
    rcases login_result_cases pbkdf2Key createJwt req st with
      hc | hc | hc | hc | ⟨t, ht, hc⟩ <;> rw [hc]
  exact ⟨h2, by rw [h2], by rw [h2]⟩
